import Mathlib

/-! The per-host agent of `dt` (`pkg/agent/agent.go`)

A shallow embedding of the instance lifecycle operations of `Agent`.

* Go values: `int` is `Int`, `string` is `String`, a nil-able pointer is an `Option`.
* A Go method that mutates the receiver is a function from the state before the call to the
  outcome and the state after it.  The state `St` is the agent together with the trace of
  the external interactions performed so far.
* The operating system, the `os/exec` library and the collaborators that live outside this file
  (`util.HttpCall`, `util.ApiUrl`, `runHttpServer`) are the fields of `Env`.  Every answer of the
  environment may depend on the whole history of interactions.
* A Go call ends in one of three ways: it returns `nil`, it returns an error, or it panics.
-/

namespace DT

/-- A Go `error` value, identified by its message. -/
abbrev Error := String

/-- The three ways a Go method of type `func(...) error` can end. -/
inductive Ret where
  /-- the method returned `nil` -/
  | ok : Ret
  /-- the method returned the non-nil error `e` -/
  | err (e : Error) : Ret
  /-- the method did not return: a run-time panic unwound it -/
  | panicked (msg : String) : Ret
  deriving DecidableEq, Repr

/-- The outcome of `return err` for a Go error value that may be nil. -/
def retOf : Option Error → Ret
  | none => Ret.ok
  | some e => Ret.err e

/-- The message of the Go run-time panic raised by reading through a nil pointer. -/
def nilDereference : String :=
  "runtime error: invalid memory address or nil pointer dereference"

/-- The Go type `os.Process`: the handle of a started process. -/
structure OsProcess where
  Pid : Int
  deriving DecidableEq, Repr

/-- The Go type `exec.Cmd`, with the fields the agent reads.  `Process` is nil (`none`) until the
command has been started; only `Start` and `Run` of that very command set it. -/
structure Cmd where
  Path : String
  Args : List String
  Process : Option OsProcess
  deriving DecidableEq, Repr

/-- One interaction of the agent with the outside world. -/
inductive Event where
  /-- Go `cmd.Run()` of a command with this path and these arguments (the program name excluded);
  `spawned` is the pid of the child that was started, if one was; `err` is what `Run` returned -/
  | run (path : String) (args : List String) (spawned : Option Int) (err : Option Error) : Event
  /-- Go `Process.Kill()` on the handle of process `pid` -/
  | kill (pid : Int) (err : Option Error) : Event
  /-- Go `Process.Wait()` on the handle of process `pid` -/
  | wait (pid : Int) (err : Option Error) : Event
  /-- Go `util.HttpCall(url, method, nil)` -/
  | httpCall (url : String) (method : String) (err : Option Error) : Event
  /-- Go `log.Warning` -/
  | logWarning : Event
  /-- Go `time.Sleep` of so many milliseconds -/
  | sleep (msec : Nat) : Event
  /-- Go `runHttpServer(a)` -/
  | serve (err : Option Error) : Event
  deriving DecidableEq, Repr

/-- The collaborators of the agent.  None of them is code of `agent.go`. -/
structure Env where
  /-- Go `os.Stat(name)`: the error, if any -/
  stat : String → Option Error
  /-- Go `os.Create(name)`: the error, if any -/
  create : String → Option Error
  /-- the `Path` that `exec.Command(name, ...)` gives the command it builds
  (the result of `exec.LookPath` for a bare name, the name itself otherwise) -/
  commandPath : String → String
  /-- Go `cmd.Run()`: given the history, the path and the arguments, the pid of the child that
  was started (if any) and the error returned (if any) -/
  runCmd : List Event → String → List String → Option Int × Option Error
  /-- Go `Process.Kill()` on a started process -/
  kill : List Event → Int → Option Error
  /-- Go `Process.Wait()` on a started process -/
  wait : List Event → Int → Option Error
  /-- Go `url.Values.Encode` of the single pair `addr = v` -/
  encodeAddr : String → String
  /-- Go `util.ApiUrl(addr, path, query)` -/
  apiUrl : String → String → String → String
  /-- Go `util.HttpCall(url, method, nil)` -/
  httpCall : List Event → String → String → Option Error
  /-- Go `runHttpServer(a)` -/
  runHttpServer : List Event → Option Error

def instanceStateUninitialized : String := "uninitialized"
def instanceStateStarted : String := "started"
def instanceStateStopped : String := "stopped"
def instanceStatePaused : String := "paused"
def instanceStateContinue : String := "continue"

def pauseInstanceCmd : String := "kill -STOP"
def continueInstanceCmd : String := "kill -CONT"
def backupInstanceDataCmd : String := "cp -r"
def cleanUpInstanceDataCmd : String := "rm -r"

/-- In milliseconds. -/
def registerIntervalTime : Nat := 50

/-- Modelled from the spec: `AgentCfg` is declared outside `agent.go`; section 6 of the
specification says the launch target, the own network address and the address of the controller
are supplied at construction time.  These are the four fields `NewAgent` reads, all strings
(`Port` is formatted with `%s`). -/
structure AgentCfg where
  Ip : String
  Port : String
  CtrlAddr : String
  DataDir : String
  deriving DecidableEq, Repr

/-- The Go struct `Agent`.  `logfile` is the name of the open log file; the listener `l` is never
read or written in `agent.go` and is left out. -/
structure Agent where
  Ip : String
  Addr : String
  CtrlAddr : String
  cmd : Cmd
  logfile : String
  instanDir : String
  instancePid : Int
  instanceState : String
  deriving DecidableEq, Repr

/-- An agent together with the interactions performed so far. -/
structure St where
  agent : Agent
  trace : List Event
  deriving DecidableEq, Repr

/-- Go `exec.Command(name, arg...)`: a command that has not been started. -/
def Command (env : Env) (name : String) (arg : List String) : Cmd :=
  { Path := env.commandPath name, Args := name :: arg, Process := none }

/-- Go `fmt.Sprintf("%s:%s", a, b)`. -/
def sprintfAddr (a b : String) : String := a ++ ":" ++ b

/-- Go `fmt.Sprintf(c + " %d", n)`: `%d` prints a Go `int` in decimal, with a minus sign when
negative. -/
def sprintfD (c : String) (n : Int) : String := c ++ " " ++ toString n

/-- Go `fmt.Sprintf(c + " %s", s)`. -/
def sprintfS (c : String) (s : String) : String := c ++ " " ++ s

/-- Go `NewAgent(cfg)`.  The fields the composite literal does not name keep their zero value:
`instanDir` is the empty string and `instancePid` is 0. -/
def NewAgent (env : Env) (cfg : AgentCfg) : Except Error Agent :=
  match env.stat cfg.DataDir with
  | some e => Except.error e
  | none =>
    match env.create cfg.DataDir with
    | some e => Except.error e
    | none =>
      Except.ok
        { Ip := cfg.Ip
          Addr := sprintfAddr cfg.Ip cfg.Port
          CtrlAddr := cfg.CtrlAddr
          instanceState := instanceStateUninitialized
          cmd := Command env cfg.DataDir []
          logfile := cfg.DataDir
          instanDir := ""
          instancePid := 0 }

/-- Go `(a *Agent) execCmd(cmd, args...)`.  The first statement rebinds the parameter `cmd` to a
fresh command built from `cmd.Path`; that fresh command is the one that runs, its `Process` is set
by `Run`, and it is dropped when `execCmd` returns.  The command passed in, and the agent, are not
modified.  The result is the error of `Run` and the state with the interaction recorded. -/
def execCmd (env : Env) (s : St) (cmd : Cmd) (args : List String) : Option Error × St :=
  let fresh := Command env cmd.Path args
  let r := env.runCmd s.trace fresh.Path args
  (r.2, { s with trace := s.trace ++ [Event.run fresh.Path args r.1 r.2] })

/-- Go `(a *Agent) StartInstance(args...)`.  After a successful `execCmd` the state is assigned
first, then `a.cmd.Process.Pid` is read: a nil `a.cmd.Process` makes that read panic. -/
def StartInstance (env : Env) (s : St) (args : List String) : Ret × St :=
  match execCmd env s s.agent.cmd args with
  | (some e, s1) => (Ret.err e, s1)
  | (none, s1) =>
    let s2 : St := { s1 with agent := { s1.agent with instanceState := instanceStateStarted } }
    match s2.agent.cmd.Process with
    | none => (Ret.panicked nilDereference, s2)
    | some p => (Ret.ok, { s2 with agent := { s2.agent with instancePid := p.Pid } })

/-- Go `(a *Agent) PauseInstance()`. -/
def PauseInstance (env : Env) (s : St) : Ret × St :=
  if s.agent.instanceState ≠ instanceStateStarted then (Ret.ok, s)
  else
    let arg := sprintfD pauseInstanceCmd s.agent.instancePid
    let cmd := Command env "sh" []
    match execCmd env s cmd ["-c", arg] with
    | (some e, s1) => (Ret.err e, s1)
    | (none, s1) =>
      (Ret.ok, { s1 with agent := { s1.agent with instanceState := instanceStatePaused } })

/-- Go `(a *Agent) ContinuePauseInstance()`. -/
def ContinuePauseInstance (env : Env) (s : St) : Ret × St :=
  if s.agent.instanceState ≠ instanceStatePaused then (Ret.ok, s)
  else
    let arg := sprintfD continueInstanceCmd s.agent.instancePid
    let cmd := Command env "sh" []
    match execCmd env s cmd ["-c", arg] with
    | (some e, s1) => (Ret.err e, s1)
    | (none, s1) =>
      (Ret.ok, { s1 with agent := { s1.agent with instanceState := instanceStateStarted } })

/-- Go `(a *Agent) StopInstance()`.  `Kill` and `Wait` are methods of `a.cmd.Process`; both read
fields of their receiver first, so on a nil receiver the call panics. -/
def StopInstance (env : Env) (s : St) : Ret × St :=
  if s.agent.instanceState ≠ instanceStateStarted then (Ret.ok, s)
  else
    match s.agent.cmd.Process with
    | none => (Ret.panicked nilDereference, s)
    | some p =>
      let k := env.kill s.trace p.Pid
      let s1 : St := { s with trace := s.trace ++ [Event.kill p.Pid k] }
      match k with
      | some e => (Ret.err e, s1)
      | none =>
        let w := env.wait s1.trace p.Pid
        let s2 : St := { s1 with trace := s1.trace ++ [Event.wait p.Pid w] }
        match w with
        | some e => (Ret.err e, s2)
        | none =>
          (Ret.ok, { s2 with agent := { s2.agent with instanceState := instanceStateStopped } })

/-- Go `(a *Agent) RestarInstance(args...)`.  A panic of `StopInstance` unwinds through the
caller. -/
def RestarInstance (env : Env) (s : St) (args : List String) : Ret × St :=
  match StopInstance env s with
  | (Ret.ok, s1) => StartInstance env s1 args
  | (Ret.err e, s1) => (Ret.err e, s1)
  | (Ret.panicked m, s1) => (Ret.panicked m, s1)

/-- Go `(a *Agent) BackupInstanceData(args...)`.  The parameter `args` is not used by the body. -/
def BackupInstanceData (env : Env) (s : St) (_args : List String) : Ret × St :=
  let arg := sprintfS backupInstanceDataCmd s.agent.instanDir
  let cmd := Command env "sh" []
  let r := execCmd env s cmd ["-c", arg]
  (retOf r.1, r.2)

/-- Go `(a *Agent) CleanUpInstanceData(args...)`.  The parameter `args` is not used by the body. -/
def CleanUpInstanceData (env : Env) (s : St) (_args : List String) : Ret × St :=
  let arg := sprintfS cleanUpInstanceDataCmd s.agent.instanDir
  let cmd := Command env "sh" []
  let r := execCmd env s cmd ["-c", arg]
  (retOf r.1, r.2)

/-- Go `(a *Agent) Register()`.  The debug log line is not recorded. -/
def Register (env : Env) (s : St) : Option Error × St :=
  let agentAttr := env.encodeAddr s.agent.Addr
  let url := env.apiUrl s.agent.CtrlAddr "api/agent/register" agentAttr
  let r := env.httpCall s.trace url "POST"
  (r, { s with trace := s.trace ++ [Event.httpCall url "POST" r] })

/-- How one pass through the body of a Go `for` loop ends. -/
inductive Ctl where
  /-- a `break` was executed -/
  | brk : Ctl
  /-- the end of the body was reached: the loop goes round again -/
  | next : Ctl
  deriving DecidableEq, Repr

/-- The Go loop `for { body }`, run for at most `fuel` passes; `none` when the fuel runs out. -/
def forLoop (body : St → Ctl × St) : Nat → St → Option St
  | 0, _ => none
  | fuel + 1, s =>
    match body s with
    | (Ctl.brk, s1) => some s1
    | (Ctl.next, s1) => forLoop body fuel s1

/-- The body of the loop of `Start`: the `if` statement around `Register`, then `break`. -/
def startLoopBody (env : Env) (s : St) : Ctl × St :=
  match Register env s with
  | (some _, s1) =>
    (Ctl.brk, { s1 with trace := s1.trace ++ [Event.logWarning, Event.sleep registerIntervalTime] })
  | (none, s1) => (Ctl.brk, s1)

/-- Go `(a *Agent) Start()`: the registration loop, then `return runHttpServer(a)`. -/
def Start (env : Env) (fuel : Nat) (s : St) : Option (Ret × St) :=
  match forLoop (startLoopBody env) fuel s with
  | none => none
  | some s1 =>
    let r := env.runHttpServer s1.trace
    some (retOf r, { s1 with trace := s1.trace ++ [Event.serve r] })

/-- Whether an interaction is a registration call. -/
def Event.isHttpCall : Event → Bool
  | Event.httpCall _ _ _ => true
  | _ => false

/-- Whether an interaction is a run of the server. -/
def Event.isServe : Event → Bool
  | Event.serve _ => true
  | _ => false

/-- Whether an interaction is the run of an external command. -/
def Event.isRun : Event → Bool
  | Event.run _ _ _ _ => true
  | _ => false

/-! ## Concrete environments and agents -/

/-- An environment in which everything succeeds; the child started by the n-th interaction has
pid `4242 + n`.  The bare names `sh` and `instance` are found on the search path; `instance` is
also the name of a file in the working directory, which is what `os.Stat` and `os.Create` of
`NewAgent` see. -/
def envOk : Env :=
  { stat := fun _ => none
    create := fun _ => none
    commandPath := fun name =>
      if name = "sh" then "/bin/sh"
      else if name = "instance" then "/usr/local/bin/instance"
      else name
    runCmd := fun hist _ _ => (some (4242 + (hist.length : Int)), none)
    kill := fun _ _ => none
    wait := fun _ _ => none
    encodeAddr := fun v => "addr=" ++ v
    apiUrl := fun addr path query => "http://" ++ addr ++ "/" ++ path ++ "?" ++ query
    httpCall := fun _ _ _ => none
    runHttpServer := fun _ => none }

/-- An environment in which every external command, every kill and the registration fail. -/
def envFail : Env :=
  { envOk with
    runCmd := fun hist _ _ => (some (4242 + (hist.length : Int)), some "exit status 1")
    kill := fun _ _ => some "os: process already finished"
    httpCall := fun _ _ _ => some "connection refused"
    runHttpServer := fun _ => some "listen: address already in use" }

/-- An environment in which the kill succeeds and the wait fails. -/
def envWaitFail : Env :=
  { envOk with wait := fun _ _ => some "wait: no child processes" }

def cfg0 : AgentCfg :=
  { Ip := "10.0.0.1", Port := "8080", CtrlAddr := "10.0.0.2:9000", DataDir := "instance" }

/-- The agent `NewAgent` builds from `cfg0`: the launch target is the program the bare name
resolves to, the log file is the file of that name in the working directory. -/
def agent0 : Agent :=
  { Ip := "10.0.0.1"
    Addr := "10.0.0.1:8080"
    CtrlAddr := "10.0.0.2:9000"
    cmd := { Path := "/usr/local/bin/instance", Args := ["instance"], Process := none }
    logfile := "instance"
    instanDir := ""
    instancePid := 0
    instanceState := "uninitialized" }

/-- An agent in state Paused that tracks pid 4242; its command handle is nil, as in every agent
built by `NewAgent`. -/
def agentPaused : Agent :=
  { agent0 with instanceState := "paused", instancePid := 4242 }

/-- An agent in state Started that tracks pid 0, with a nil command handle: the agent that
`StartInstance` leaves behind when it is run on `agent0` and the launch succeeds. -/
def agentStarted : Agent :=
  { agent0 with instanceState := "started" }

/-- An agent in state Started whose `instancePid` is 7 and whose command handle is a started
process with pid 9. -/
def agentHandle : Agent :=
  { agent0 with
    instanceState := "started"
    instancePid := 7
    cmd := { Path := "/usr/local/bin/instance", Args := ["instance"], Process := some { Pid := 9 } } }

/-- The path of the command that `execCmd` runs when it is handed `exec.Command("sh")`. -/
def shPath (env : Env) : String := env.commandPath (env.commandPath "sh")

/-- Restart as the specification words it: Stop, then Start on the state Stop produced; when Stop
does not return success, Start is not attempted and the outcome of Stop is the outcome. -/
def RestartSpec (env : Env) (s : St) (args : List String) : Ret × St :=
  let r := StopInstance env s
  if r.1 = Ret.ok then StartInstance env r.2 args else r

/-- The trace once the registration step of `Start` is over: one registration call and, when it
failed, the warning and the pause that follow it. -/
def afterRegister (env : Env) (s : St) : List Event :=
  let url := env.apiUrl s.agent.CtrlAddr "api/agent/register" (env.encodeAddr s.agent.Addr)
  let reg := env.httpCall s.trace url "POST"
  s.trace ++ Event.httpCall url "POST" reg ::
    (if reg.isSome then [Event.logWarning, Event.sleep registerIntervalTime] else [])

/-- A lifecycle call on the agent. -/
inductive Op where
  | start (args : List String) : Op
  | restart (args : List String) : Op
  | pause : Op
  | continuePause : Op
  | stop : Op
  | backup (args : List String) : Op
  | cleanUp (args : List String) : Op
  deriving DecidableEq, Repr

/-- One lifecycle call: the method the call names, run on the state. -/
def step (env : Env) (s : St) : Op → Ret × St
  | Op.start args => StartInstance env s args
  | Op.restart args => RestarInstance env s args
  | Op.pause => PauseInstance env s
  | Op.continuePause => ContinuePauseInstance env s
  | Op.stop => StopInstance env s
  | Op.backup args => BackupInstanceData env s args
  | Op.cleanUp args => CleanUpInstanceData env s args

/-- The state after a sequence of lifecycle calls, each made on the state the one before it left
behind, whatever that one returned. -/
def runOps (env : Env) : St → List Op → St
  | s, [] => s
  | s, op :: ops => runOps env (step env s op).2 ops

/-- An agent that has not launched anything yet and whose command handle is a started process with
pid 9. -/
def agentIdleHandle : Agent :=
  { agent0 with
    cmd := { Path := "/usr/local/bin/instance", Args := ["instance"], Process := some { Pid := 9 } } }

/-! ## Theorems -/

/-- The command executor never touches the agent, and records exactly one interaction. -/
theorem execCmd_eq (env : Env) (s : St) (cmd : Cmd) (args : List String) :
    execCmd env s cmd args =
      ((env.runCmd s.trace (env.commandPath cmd.Path) args).2,
       { agent := s.agent
         trace := s.trace ++ [Event.run (env.commandPath cmd.Path) args
           (env.runCmd s.trace (env.commandPath cmd.Path) args).1
           (env.runCmd s.trace (env.commandPath cmd.Path) args).2] }) :=
  rfl

/-- The agent built by `NewAgent` has a command that was never started. -/
theorem NewAgent_handle_nil (env : Env) (cfg : AgentCfg) (a : Agent)
    (h : NewAgent env cfg = Except.ok a) : a.cmd.Process = none := by
  unfold NewAgent at h
  split at h
  · cases h
  · split at h
    · cases h
    · cases h
      rfl

/-- The operation `StartInstance` when the launch fails. -/
theorem StartInstance_err (env : Env) (s : St) (args : List String) (e : Error)
    (h : (env.runCmd s.trace (env.commandPath s.agent.cmd.Path) args).2 = some e) :
    StartInstance env s args =
      (Ret.err e,
       { agent := s.agent
         trace := s.trace ++ [Event.run (env.commandPath s.agent.cmd.Path) args
           (env.runCmd s.trace (env.commandPath s.agent.cmd.Path) args).1 (some e)] }) := by
  unfold StartInstance
  rw [execCmd_eq, h]

/-- The operation `StartInstance` when the launch succeeds and the command handle is nil. -/
theorem StartInstance_ok_nil (env : Env) (s : St) (args : List String)
    (h : (env.runCmd s.trace (env.commandPath s.agent.cmd.Path) args).2 = none)
    (hp : s.agent.cmd.Process = none) :
    StartInstance env s args =
      (Ret.panicked nilDereference,
       { agent := { s.agent with instanceState := instanceStateStarted }
         trace := s.trace ++ [Event.run (env.commandPath s.agent.cmd.Path) args
           (env.runCmd s.trace (env.commandPath s.agent.cmd.Path) args).1 none] }) := by
  unfold StartInstance
  rw [execCmd_eq, h]
  dsimp only
  rw [hp]

/-- The operation `StartInstance` when the launch succeeds and the command handle is a started
process. -/
theorem StartInstance_ok_some (env : Env) (s : St) (args : List String) (p : OsProcess)
    (h : (env.runCmd s.trace (env.commandPath s.agent.cmd.Path) args).2 = none)
    (hp : s.agent.cmd.Process = some p) :
    StartInstance env s args =
      (Ret.ok,
       { agent := { s.agent with instanceState := instanceStateStarted, instancePid := p.Pid }
         trace := s.trace ++ [Event.run (env.commandPath s.agent.cmd.Path) args
           (env.runCmd s.trace (env.commandPath s.agent.cmd.Path) args).1 none] }) := by
  unfold StartInstance
  rw [execCmd_eq, h]
  dsimp only
  rw [hp]

/-- In every state `StartInstance` runs the launch command exactly once. -/
theorem StartInstance_trace (env : Env) (s : St) (args : List String) :
    (StartInstance env s args).2.trace =
      s.trace ++ [Event.run (env.commandPath s.agent.cmd.Path) args
        (env.runCmd s.trace (env.commandPath s.agent.cmd.Path) args).1
        (env.runCmd s.trace (env.commandPath s.agent.cmd.Path) args).2] := by
  cases h : (env.runCmd s.trace (env.commandPath s.agent.cmd.Path) args).2 with
  | some e => rw [StartInstance_err env s args e h]
  | none =>
    cases hp : s.agent.cmd.Process with
    | none => rw [StartInstance_ok_nil env s args h hp]
    | some p => rw [StartInstance_ok_some env s args p h hp]

/-- With a nil command handle, `StartInstance` never returns success: it returns the launch error
or it panics. -/
theorem StartInstance_nil_handle (env : Env) (s : St) (args : List String)
    (hp : s.agent.cmd.Process = none) : (StartInstance env s args).1 ≠ Ret.ok := by
  cases h : (env.runCmd s.trace (env.commandPath s.agent.cmd.Path) args).2 with
  | some e => rw [StartInstance_err env s args e h]; simp
  | none => rw [StartInstance_ok_nil env s args h hp]; simp

/-- The operation `PauseInstance` in state Started, by the outcome of the signal command. -/
theorem PauseInstance_started (env : Env) (s : St)
    (hs : s.agent.instanceState = instanceStateStarted) :
    PauseInstance env s =
      (retOf (env.runCmd s.trace (shPath env)
          ["-c", sprintfD pauseInstanceCmd s.agent.instancePid]).2,
       { agent :=
           match (env.runCmd s.trace (shPath env)
             ["-c", sprintfD pauseInstanceCmd s.agent.instancePid]).2 with
           | none => { s.agent with instanceState := instanceStatePaused }
           | some _ => s.agent
         trace := s.trace ++ [Event.run (shPath env)
           ["-c", sprintfD pauseInstanceCmd s.agent.instancePid]
           (env.runCmd s.trace (shPath env) ["-c", sprintfD pauseInstanceCmd s.agent.instancePid]).1
           (env.runCmd s.trace (shPath env)
             ["-c", sprintfD pauseInstanceCmd s.agent.instancePid]).2] }) := by
  unfold PauseInstance
  rw [if_neg (not_not.mpr hs)]
  dsimp only
  rw [execCmd_eq]
  have hsh : env.commandPath (Command env "sh" []).Path = shPath env := rfl
  rw [hsh]
  generalize env.runCmd s.trace (shPath env) ["-c", sprintfD pauseInstanceCmd s.agent.instancePid] = r
  rcases r with ⟨sp, _ | e⟩ <;> rfl

/-- The operation `ContinuePauseInstance` in state Paused, by the outcome of the signal command. -/
theorem ContinuePauseInstance_paused (env : Env) (s : St)
    (hs : s.agent.instanceState = instanceStatePaused) :
    ContinuePauseInstance env s =
      (retOf (env.runCmd s.trace (shPath env)
          ["-c", sprintfD continueInstanceCmd s.agent.instancePid]).2,
       { agent :=
           match (env.runCmd s.trace (shPath env)
             ["-c", sprintfD continueInstanceCmd s.agent.instancePid]).2 with
           | none => { s.agent with instanceState := instanceStateStarted }
           | some _ => s.agent
         trace := s.trace ++ [Event.run (shPath env)
           ["-c", sprintfD continueInstanceCmd s.agent.instancePid]
           (env.runCmd s.trace (shPath env)
             ["-c", sprintfD continueInstanceCmd s.agent.instancePid]).1
           (env.runCmd s.trace (shPath env)
             ["-c", sprintfD continueInstanceCmd s.agent.instancePid]).2] }) := by
  unfold ContinuePauseInstance
  rw [if_neg (not_not.mpr hs)]
  dsimp only
  rw [execCmd_eq]
  have hsh : env.commandPath (Command env "sh" []).Path = shPath env := rfl
  rw [hsh]
  generalize env.runCmd s.trace (shPath env) ["-c", sprintfD continueInstanceCmd s.agent.instancePid] = r
  rcases r with ⟨sp, _ | e⟩ <;> rfl

/-- The operation `StopInstance` in state Started with a nil command handle. -/
theorem StopInstance_started_nil (env : Env) (s : St)
    (hs : s.agent.instanceState = instanceStateStarted) (hp : s.agent.cmd.Process = none) :
    StopInstance env s = (Ret.panicked nilDereference, s) := by
  unfold StopInstance
  rw [if_neg (not_not.mpr hs), hp]

/-- The operation `StopInstance` in state Started with a started command handle, when the kill
fails. -/
theorem StopInstance_kill_err (env : Env) (s : St) (p : OsProcess) (e : Error)
    (hs : s.agent.instanceState = instanceStateStarted) (hp : s.agent.cmd.Process = some p)
    (hk : env.kill s.trace p.Pid = some e) :
    StopInstance env s =
      (Ret.err e, { agent := s.agent, trace := s.trace ++ [Event.kill p.Pid (some e)] }) := by
  unfold StopInstance
  rw [if_neg (not_not.mpr hs), hp]
  dsimp only
  rw [hk]

/-- The operation `StopInstance` in state Started with a started command handle, when the kill
succeeds and the wait fails. -/
theorem StopInstance_wait_err (env : Env) (s : St) (p : OsProcess) (e : Error)
    (hs : s.agent.instanceState = instanceStateStarted) (hp : s.agent.cmd.Process = some p)
    (hk : env.kill s.trace p.Pid = none)
    (hw : env.wait (s.trace ++ [Event.kill p.Pid none]) p.Pid = some e) :
    StopInstance env s =
      (Ret.err e,
       { agent := s.agent
         trace := s.trace ++ [Event.kill p.Pid none] ++ [Event.wait p.Pid (some e)] }) := by
  unfold StopInstance
  rw [if_neg (not_not.mpr hs), hp]
  dsimp only
  rw [hk]
  dsimp only
  rw [hw]

/-- The operation `StopInstance` in state Started with a started command handle, when the kill
and the wait succeed. -/
theorem StopInstance_ok (env : Env) (s : St) (p : OsProcess)
    (hs : s.agent.instanceState = instanceStateStarted) (hp : s.agent.cmd.Process = some p)
    (hk : env.kill s.trace p.Pid = none)
    (hw : env.wait (s.trace ++ [Event.kill p.Pid none]) p.Pid = none) :
    StopInstance env s =
      (Ret.ok,
       { agent := { s.agent with instanceState := instanceStateStopped }
         trace := s.trace ++ [Event.kill p.Pid none] ++ [Event.wait p.Pid none] }) := by
  unfold StopInstance
  rw [if_neg (not_not.mpr hs), hp]
  dsimp only
  rw [hk]
  dsimp only
  rw [hw]

/-- The operation `StopInstance` outside state Started. -/
theorem StopInstance_not_started (env : Env) (s : St)
    (hs : s.agent.instanceState ≠ instanceStateStarted) : StopInstance env s = (Ret.ok, s) := by
  unfold StopInstance
  rw [if_pos hs]

/-- The operation `StopInstance` runs no external command. -/
theorem StopInstance_no_run (env : Env) (s : St) :
    (StopInstance env s).2.trace.filter Event.isRun = s.trace.filter Event.isRun := by
  by_cases hs : s.agent.instanceState = instanceStateStarted
  · cases hp : s.agent.cmd.Process with
    | none => rw [StopInstance_started_nil env s hs hp]
    | some p =>
      cases hk : env.kill s.trace p.Pid with
      | some e =>
        rw [StopInstance_kill_err env s p e hs hp hk]
        simp [Event.isRun]
      | none =>
        cases hw : env.wait (s.trace ++ [Event.kill p.Pid none]) p.Pid with
        | some e =>
          rw [StopInstance_wait_err env s p e hs hp hk hw]
          simp [Event.isRun]
        | none =>
          rw [StopInstance_ok env s p hs hp hk hw]
          simp [Event.isRun]
  · rw [StopInstance_not_started env s hs]

/-- The signal command of `PauseInstance`, written out. -/
theorem sprintfD_pause (p : Int) : sprintfD pauseInstanceCmd p = "kill -STOP " ++ toString p := by
  unfold sprintfD pauseInstanceCmd
  rfl

/-- The signal command of `ContinuePauseInstance`, written out. -/
theorem sprintfD_continue (p : Int) :
    sprintfD continueInstanceCmd p = "kill -CONT " ++ toString p := by
  unfold sprintfD continueInstanceCmd
  rfl

/-- The copy command of `BackupInstanceData`, written out. -/
theorem sprintfS_backup (d : String) : sprintfS backupInstanceDataCmd d = "cp -r " ++ d := by
  unfold sprintfS backupInstanceDataCmd
  rfl

/-- The remove command of `CleanUpInstanceData`, written out. -/
theorem sprintfS_cleanUp (d : String) : sprintfS cleanUpInstanceDataCmd d = "rm -r " ++ d := by
  unfold sprintfS cleanUpInstanceDataCmd
  rfl

/-- The operation `BackupInstanceData` does not look at its arguments. -/
theorem BackupInstanceData_ignores_args (env : Env) (s : St) (args : List String) :
    BackupInstanceData env s args = BackupInstanceData env s [] :=
  rfl

/-- The operation `PauseInstance` in state Started when the signal command succeeds. -/
theorem PauseInstance_ok (env : Env) (s : St)
    (hs : s.agent.instanceState = instanceStateStarted)
    (h : (env.runCmd s.trace (shPath env)
      ["-c", "kill -STOP " ++ toString s.agent.instancePid]).2 = none) :
    PauseInstance env s =
      (Ret.ok,
       { agent := { s.agent with instanceState := instanceStatePaused }
         trace := s.trace ++ [Event.run (shPath env)
           ["-c", "kill -STOP " ++ toString s.agent.instancePid]
           (env.runCmd s.trace (shPath env)
             ["-c", "kill -STOP " ++ toString s.agent.instancePid]).1 none] }) := by
  have hP := PauseInstance_started env s hs
  rw [sprintfD_pause, h] at hP
  exact hP

/-- The operation `PauseInstance` in state Started when the signal command fails. -/
theorem PauseInstance_err (env : Env) (s : St) (e : Error)
    (hs : s.agent.instanceState = instanceStateStarted)
    (h : (env.runCmd s.trace (shPath env)
      ["-c", "kill -STOP " ++ toString s.agent.instancePid]).2 = some e) :
    PauseInstance env s =
      (Ret.err e,
       { agent := s.agent
         trace := s.trace ++ [Event.run (shPath env)
           ["-c", "kill -STOP " ++ toString s.agent.instancePid]
           (env.runCmd s.trace (shPath env)
             ["-c", "kill -STOP " ++ toString s.agent.instancePid]).1 (some e)] }) := by
  have hP := PauseInstance_started env s hs
  rw [sprintfD_pause, h] at hP
  exact hP

/-- The operation `ContinuePauseInstance` in state Paused when the signal command succeeds. -/
theorem ContinuePauseInstance_ok (env : Env) (s : St)
    (hs : s.agent.instanceState = instanceStatePaused)
    (h : (env.runCmd s.trace (shPath env)
      ["-c", "kill -CONT " ++ toString s.agent.instancePid]).2 = none) :
    ContinuePauseInstance env s =
      (Ret.ok,
       { agent := { s.agent with instanceState := instanceStateStarted }
         trace := s.trace ++ [Event.run (shPath env)
           ["-c", "kill -CONT " ++ toString s.agent.instancePid]
           (env.runCmd s.trace (shPath env)
             ["-c", "kill -CONT " ++ toString s.agent.instancePid]).1 none] }) := by
  have hC := ContinuePauseInstance_paused env s hs
  rw [sprintfD_continue, h] at hC
  exact hC

/-- The operation `ContinuePauseInstance` in state Paused when the signal command fails. -/
theorem ContinuePauseInstance_err (env : Env) (s : St) (e : Error)
    (hs : s.agent.instanceState = instanceStatePaused)
    (h : (env.runCmd s.trace (shPath env)
      ["-c", "kill -CONT " ++ toString s.agent.instancePid]).2 = some e) :
    ContinuePauseInstance env s =
      (Ret.err e,
       { agent := s.agent
         trace := s.trace ++ [Event.run (shPath env)
           ["-c", "kill -CONT " ++ toString s.agent.instancePid]
           (env.runCmd s.trace (shPath env)
             ["-c", "kill -CONT " ++ toString s.agent.instancePid]).1 (some e)] }) := by
  have hC := ContinuePauseInstance_paused env s hs
  rw [sprintfD_continue, h] at hC
  exact hC

/-- No lifecycle operation assigns to `a.cmd`: the command handle an agent is built with is the
one it keeps. -/
theorem cmd_never_assigned (env : Env) (s : St) (args : List String) :
    (StartInstance env s args).2.agent.cmd = s.agent.cmd ∧
    (PauseInstance env s).2.agent.cmd = s.agent.cmd ∧
    (ContinuePauseInstance env s).2.agent.cmd = s.agent.cmd ∧
    (StopInstance env s).2.agent.cmd = s.agent.cmd ∧
    (RestarInstance env s args).2.agent.cmd = s.agent.cmd ∧
    (BackupInstanceData env s args).2.agent.cmd = s.agent.cmd ∧
    (CleanUpInstanceData env s args).2.agent.cmd = s.agent.cmd := by
  have hstart : ∀ t : St, (StartInstance env t args).2.agent.cmd = t.agent.cmd := by
    intro t
    cases h : (env.runCmd t.trace (env.commandPath t.agent.cmd.Path) args).2 with
    | some e => rw [StartInstance_err env t args e h]
    | none =>
      cases hp : t.agent.cmd.Process with
      | none => rw [StartInstance_ok_nil env t args h hp]
      | some p => rw [StartInstance_ok_some env t args p h hp]
  have hstop : (StopInstance env s).2.agent.cmd = s.agent.cmd := by
    by_cases hs : s.agent.instanceState = instanceStateStarted
    · cases hp : s.agent.cmd.Process with
      | none => rw [StopInstance_started_nil env s hs hp]
      | some p =>
        cases hk : env.kill s.trace p.Pid with
        | some e => rw [StopInstance_kill_err env s p e hs hp hk]
        | none =>
          cases hw : env.wait (s.trace ++ [Event.kill p.Pid none]) p.Pid with
          | some e => rw [StopInstance_wait_err env s p e hs hp hk hw]
          | none => rw [StopInstance_ok env s p hs hp hk hw]
    · rw [StopInstance_not_started env s hs]
  refine ⟨hstart s, ?_, ?_, hstop, ?_, rfl, rfl⟩
  · by_cases hs : s.agent.instanceState = instanceStateStarted
    · rw [PauseInstance_started env s hs]
      dsimp only
      split <;> rfl
    · unfold PauseInstance
      rw [if_pos hs]
  · by_cases hs : s.agent.instanceState = instanceStatePaused
    · rw [ContinuePauseInstance_paused env s hs]
      dsimp only
      split <;> rfl
    · unfold ContinuePauseInstance
      rw [if_pos hs]
  · unfold RestarInstance
    rcases hr : StopInstance env s with ⟨r, s1⟩
    rw [hr] at hstop
    cases r with
    | ok => exact (hstart s1).trans hstop
    | err e => exact hstop
    | panicked m => exact hstop

/-- A `StartInstance` that returns success has recorded in `instancePid` the pid of the command
handle of the agent. -/
theorem StartInstance_ok_records_handle (env : Env) (s0 s1 : St) (args : List String)
    (h : StartInstance env s0 args = (Ret.ok, s1)) :
    s1.agent.cmd.Process = some { Pid := s1.agent.instancePid } := by
  cases hr : (env.runCmd s0.trace (env.commandPath s0.agent.cmd.Path) args).2 with
  | some e =>
    rw [StartInstance_err env s0 args e hr] at h
    simp at h
  | none =>
    cases hp : s0.agent.cmd.Process with
    | none =>
      rw [StartInstance_ok_nil env s0 args hr hp] at h
      simp at h
    | some p =>
      rw [StartInstance_ok_some env s0 args p hr hp] at h
      simp only [Prod.mk.injEq, true_and] at h
      subst h
      exact hp

/-- Once `instancePid` is the pid of the command handle, `StartInstance` keeps it so. -/
theorem StartInstance_keeps_pid (env : Env) (s : St) (args : List String) (n : Int)
    (hp : s.agent.cmd.Process = some { Pid := n }) (hn : s.agent.instancePid = n) :
    (StartInstance env s args).2.agent.cmd.Process = some { Pid := n } ∧
    (StartInstance env s args).2.agent.instancePid = n := by
  cases hr : (env.runCmd s.trace (env.commandPath s.agent.cmd.Path) args).2 with
  | some e =>
    rw [StartInstance_err env s args e hr]
    exact ⟨hp, hn⟩
  | none =>
    rw [StartInstance_ok_some env s args { Pid := n } hr hp]
    exact ⟨hp, rfl⟩

/-- No operation other than `StartInstance` assigns to `instancePid`. -/
theorem instancePid_only_set_by_start (env : Env) (s : St) (args : List String) :
    (PauseInstance env s).2.agent.instancePid = s.agent.instancePid ∧
    (ContinuePauseInstance env s).2.agent.instancePid = s.agent.instancePid ∧
    (StopInstance env s).2.agent.instancePid = s.agent.instancePid ∧
    (BackupInstanceData env s args).2.agent.instancePid = s.agent.instancePid ∧
    (CleanUpInstanceData env s args).2.agent.instancePid = s.agent.instancePid := by
  refine ⟨?_, ?_, ?_, rfl, rfl⟩
  · by_cases hs : s.agent.instanceState = instanceStateStarted
    · rw [PauseInstance_started env s hs]
      dsimp only
      split <;> rfl
    · unfold PauseInstance
      rw [if_pos hs]
  · by_cases hs : s.agent.instanceState = instanceStatePaused
    · rw [ContinuePauseInstance_paused env s hs]
      dsimp only
      split <;> rfl
    · unfold ContinuePauseInstance
      rw [if_pos hs]
  · by_cases hs : s.agent.instanceState = instanceStateStarted
    · cases hp : s.agent.cmd.Process with
      | none => rw [StopInstance_started_nil env s hs hp]
      | some p =>
        cases hk : env.kill s.trace p.Pid with
        | some e => rw [StopInstance_kill_err env s p e hs hp hk]
        | none =>
          cases hw : env.wait (s.trace ++ [Event.kill p.Pid none]) p.Pid with
          | some e => rw [StopInstance_wait_err env s p e hs hp hk hw]
          | none => rw [StopInstance_ok env s p hs hp hk hw]
    · rw [StopInstance_not_started env s hs]

/-- Once `instancePid` is the pid of the command handle, every lifecycle call keeps it so. -/
theorem step_keeps_pid (env : Env) (s : St) (op : Op) (n : Int)
    (hp : s.agent.cmd.Process = some { Pid := n }) (hn : s.agent.instancePid = n) :
    (step env s op).2.agent.cmd.Process = some { Pid := n } ∧
    (step env s op).2.agent.instancePid = n := by
  have hc := cmd_never_assigned env s []
  have hi := instancePid_only_set_by_start env s []
  cases op with
  | start args => exact StartInstance_keeps_pid env s args n hp hn
  | restart args =>
    have hstop : (StopInstance env s).2.agent.cmd.Process = some { Pid := n } ∧
        (StopInstance env s).2.agent.instancePid = n :=
      ⟨by rw [hc.2.2.2.1]; exact hp, by rw [hi.2.2.1]; exact hn⟩
    show (RestarInstance env s args).2.agent.cmd.Process = _ ∧
      (RestarInstance env s args).2.agent.instancePid = _
    unfold RestarInstance
    rcases hr : StopInstance env s with ⟨r, s1⟩
    rw [hr] at hstop
    cases r with
    | ok => exact StartInstance_keeps_pid env s1 args n hstop.1 hstop.2
    | err e => exact hstop
    | panicked m => exact hstop
  | pause => exact ⟨by rw [← hp]; exact congrArg Cmd.Process hc.2.1, by rw [← hn]; exact hi.1⟩
  | continuePause =>
    exact ⟨by rw [← hp]; exact congrArg Cmd.Process hc.2.2.1, by rw [← hn]; exact hi.2.1⟩
  | stop =>
    exact ⟨by rw [← hp]; exact congrArg Cmd.Process hc.2.2.2.1, by rw [← hn]; exact hi.2.2.1⟩
  | backup args => exact ⟨hp, hn⟩
  | cleanUp args => exact ⟨hp, hn⟩

/-- Once `instancePid` is the pid of the command handle, every sequence of lifecycle calls keeps
it so. -/
theorem runOps_keeps_pid (env : Env) (ops : List Op) (s : St) (n : Int)
    (hp : s.agent.cmd.Process = some { Pid := n }) (hn : s.agent.instancePid = n) :
    (runOps env s ops).agent.cmd.Process = some { Pid := n } ∧
    (runOps env s ops).agent.instancePid = n := by
  induction ops generalizing s with
  | nil => exact ⟨hp, hn⟩
  | cons op ops ih =>
    have h := step_keeps_pid env s op n hp hn
    exact ih (step env s op).2 h.1 h.2

/-! ## The claims -/

/-- C1, the code at the failing input.  On the agent that `NewAgent` builds, a `StartInstance`
whose launch succeeds and spawns process 4242 does not return success: it panics on the nil
`a.cmd.Process`, after `instanceState` was set to Started, and `instancePid` is still 0, not
4242. -/
theorem StartInstance_fresh_agent_panics :
    NewAgent envOk cfg0 = Except.ok agent0 ∧
    StartInstance envOk { agent := agent0, trace := [] } ["-x"] =
      (Ret.panicked nilDereference,
       { agent := { agent0 with instanceState := "started" }
         trace := [Event.run "/usr/local/bin/instance" ["-x"] (some 4242) none] }) ∧
    (StartInstance envOk { agent := agent0, trace := [] } ["-x"]).2.agent.instancePid = 0 :=
  ⟨rfl, by decide, by decide⟩

/-- C2.  Outside state Started, `PauseInstance` and `StopInstance` return success, and outside
state Paused `ContinuePauseInstance` returns success; the state after the call is the state
before it, trace included: nothing was run, signalled or waited for, and the agent is unchanged. -/
theorem noop_outside_source_state (env : Env) (s : St) :
    (s.agent.instanceState ≠ instanceStateStarted →
      PauseInstance env s = (Ret.ok, s) ∧ StopInstance env s = (Ret.ok, s)) ∧
    (s.agent.instanceState ≠ instanceStatePaused →
      ContinuePauseInstance env s = (Ret.ok, s)) := by
  refine ⟨fun hs => ⟨?_, StopInstance_not_started env s hs⟩, fun hs => ?_⟩
  · unfold PauseInstance
    rw [if_pos hs]
  · unfold ContinuePauseInstance
    rw [if_pos hs]

/-- Witness of C2: the freshly built agent, in an environment where every command would fail. -/
theorem noop_outside_source_state_witness :
    (agent0.instanceState ≠ instanceStateStarted ∧ agent0.instanceState ≠ instanceStatePaused) ∧
    (PauseInstance envFail { agent := agent0, trace := [] }
        = (Ret.ok, { agent := agent0, trace := [] }) ∧
      StopInstance envFail { agent := agent0, trace := [] }
        = (Ret.ok, { agent := agent0, trace := [] })) ∧
    ContinuePauseInstance envFail { agent := agent0, trace := [] }
      = (Ret.ok, { agent := agent0, trace := [] }) :=
  ⟨⟨by decide, by decide⟩,
   (noop_outside_source_state envFail { agent := agent0, trace := [] }).1 (by decide),
   (noop_outside_source_state envFail { agent := agent0, trace := [] }).2 (by decide)⟩

/-- C3.  Take any state reached, by any sequence of lifecycle calls, after a `StartInstance` that
returned success, and let it be in state Started.  If the kill and the wait both succeed, then
`StopInstance` returns success, `instanceState` is Stopped and nothing else of the agent has
changed, and the interactions performed are exactly one kill and then one wait, both on the
process that `instancePid` identifies; `instancePid` is still the pid that the successful
`StartInstance` recorded, and it is the pid of the command handle of the agent.  The successful
wait is the last interaction: it returns once that process has exited. -/
theorem stop_kills_the_tracked_process (env : Env) (s0 s1 : St) (args : List String)
    (ops : List Op)
    (hstart : StartInstance env s0 args = (Ret.ok, s1))
    (hs : (runOps env s1 ops).agent.instanceState = instanceStateStarted)
    (hk : env.kill (runOps env s1 ops).trace (runOps env s1 ops).agent.instancePid = none)
    (hw : env.wait
        ((runOps env s1 ops).trace ++ [Event.kill (runOps env s1 ops).agent.instancePid none])
        (runOps env s1 ops).agent.instancePid = none) :
    (runOps env s1 ops).agent.instancePid = s1.agent.instancePid ∧
    (runOps env s1 ops).agent.cmd.Process = some { Pid := s1.agent.instancePid } ∧
    StopInstance env (runOps env s1 ops) =
      (Ret.ok,
       { agent := { (runOps env s1 ops).agent with instanceState := instanceStateStopped }
         trace := (runOps env s1 ops).trace ++
           [Event.kill (runOps env s1 ops).agent.instancePid none,
            Event.wait (runOps env s1 ops).agent.instancePid none] }) := by
  have h1 := StartInstance_ok_records_handle env s0 s1 args hstart
  have h := runOps_keeps_pid env ops s1 s1.agent.instancePid h1 rfl
  refine ⟨h.2, h.1, ?_⟩
  have hpid : (runOps env s1 ops).agent.cmd.Process =
      some { Pid := (runOps env s1 ops).agent.instancePid } := by
    rw [h.1, h.2]
  rw [StopInstance_ok env (runOps env s1 ops)
    { Pid := (runOps env s1 ops).agent.instancePid } hs hpid hk hw]
  simp only [List.append_assoc, List.cons_append, List.nil_append]

/-- Witness of C3: a successful start, a pause and a resume, then the stop; every interaction
succeeds. -/
theorem stop_kills_the_tracked_process_witness :
    (StartInstance envOk { agent := agentIdleHandle, trace := [] } ["-x"] =
        (Ret.ok,
         { agent := { agentIdleHandle with instanceState := "started", instancePid := 9 }
           trace := [Event.run "/usr/local/bin/instance" ["-x"] (some 4242) none] }) ∧
      (runOps envOk
          { agent := { agentIdleHandle with instanceState := "started", instancePid := 9 }
            trace := [Event.run "/usr/local/bin/instance" ["-x"] (some 4242) none] }
          [Op.pause, Op.continuePause]).agent.instanceState = instanceStateStarted) ∧
    StopInstance envOk
        (runOps envOk
          { agent := { agentIdleHandle with instanceState := "started", instancePid := 9 }
            trace := [Event.run "/usr/local/bin/instance" ["-x"] (some 4242) none] }
          [Op.pause, Op.continuePause]) =
      (Ret.ok,
       { agent := { agentIdleHandle with instanceState := "stopped", instancePid := 9 }
         trace := [Event.run "/usr/local/bin/instance" ["-x"] (some 4242) none,
                   Event.run "/bin/sh" ["-c", "kill -STOP 9"] (some 4243) none,
                   Event.run "/bin/sh" ["-c", "kill -CONT 9"] (some 4244) none,
                   Event.kill 9 none, Event.wait 9 none] }) :=
  ⟨⟨by decide, by decide⟩,
   (stop_kills_the_tracked_process envOk { agent := agentIdleHandle, trace := [] }
      { agent := { agentIdleHandle with instanceState := "started", instancePid := 9 }
        trace := [Event.run "/usr/local/bin/instance" ["-x"] (some 4242) none] }
      ["-x"] [Op.pause, Op.continuePause]
      (by decide) (by decide) (by decide) (by decide)).2.2⟩

/-- C4.  From state Started with `instancePid = p`, when both signal commands succeed,
`PauseInstance` returns success in state Paused with pid `p`, the `ContinuePauseInstance` that
follows returns success in state Started with pid `p` (the agent is the one before the pause),
and exactly two commands were run: the shell with `-c "kill -STOP p"`, then the shell with
`-c "kill -CONT p"`. -/
theorem pause_then_continue (env : Env) (s : St) (p : Int)
    (hs : s.agent.instanceState = instanceStateStarted) (hp : s.agent.instancePid = p)
    (h1 : (env.runCmd s.trace (shPath env) ["-c", "kill -STOP " ++ toString p]).2 = none)
    (h2 : (env.runCmd (PauseInstance env s).2.trace (shPath env)
            ["-c", "kill -CONT " ++ toString p]).2 = none) :
    (PauseInstance env s).1 = Ret.ok ∧
    (PauseInstance env s).2.agent.instanceState = instanceStatePaused ∧
    (PauseInstance env s).2.agent.instancePid = p ∧
    (ContinuePauseInstance env (PauseInstance env s).2).1 = Ret.ok ∧
    (ContinuePauseInstance env (PauseInstance env s).2).2.agent.instanceState
      = instanceStateStarted ∧
    (ContinuePauseInstance env (PauseInstance env s).2).2.agent.instancePid = p ∧
    (ContinuePauseInstance env (PauseInstance env s).2).2.agent = s.agent ∧
    (ContinuePauseInstance env (PauseInstance env s).2).2.trace =
      s.trace ++
        [Event.run (shPath env) ["-c", "kill -STOP " ++ toString p]
           (env.runCmd s.trace (shPath env) ["-c", "kill -STOP " ++ toString p]).1 none,
         Event.run (shPath env) ["-c", "kill -CONT " ++ toString p]
           (env.runCmd (PauseInstance env s).2.trace (shPath env)
             ["-c", "kill -CONT " ++ toString p]).1 none] := by
  subst hp
  have hP := PauseInstance_ok env s hs h1
  rw [hP] at h2 ⊢
  have hC := ContinuePauseInstance_ok env _ rfl h2
  refine ⟨rfl, rfl, rfl, ?_, ?_, ?_, ?_, ?_⟩
  · exact congrArg Prod.fst hC
  · exact congrArg (fun r => r.2.agent.instanceState) hC
  · exact congrArg (fun r => r.2.agent.instancePid) hC
  · refine (congrArg (fun r => r.2.agent) hC).trans ?_
    cases s with
    | mk a t =>
      cases a
      simp only at hs
      simp [hs]
  · refine (congrArg (fun r => r.2.trace) hC).trans ?_
    simp

/-- Witness of C4: an agent in state Started with pid 4242, every command succeeding. -/
theorem pause_then_continue_witness :
    (agentStarted.instanceState = instanceStateStarted ∧
      (envOk.runCmd [] (shPath envOk) ["-c", "kill -STOP 4242"]).2 = none) ∧
    (ContinuePauseInstance envOk (PauseInstance envOk
        { agent := { agentStarted with instancePid := 4242 }, trace := [] }).2).2.trace =
      [Event.run "/bin/sh" ["-c", "kill -STOP 4242"] (some 4242) none,
       Event.run "/bin/sh" ["-c", "kill -CONT 4242"] (some 4243) none] :=
  ⟨⟨by decide, by decide⟩,
   (pause_then_continue envOk
      { agent := { agentStarted with instancePid := 4242 }, trace := [] } 4242
      (by decide) (by decide) (by decide) (by decide)).2.2.2.2.2.2.2⟩

/-- C5.  `RestarInstance` is `StopInstance` followed by `StartInstance`.  It coincides with the
composition the specification describes; when `StopInstance` returns the error `e`,
`RestarInstance` returns `e`, leaves the state as `StopInstance` left it and runs no command
(no launch); when `StopInstance` returns success, the outcome and the final state are those of
`StartInstance` run on the state `StopInstance` produced. -/
theorem restart_is_stop_then_start (env : Env) (s : St) (args : List String) :
    RestarInstance env s args = RestartSpec env s args ∧
    (∀ e, (StopInstance env s).1 = Ret.err e →
      RestarInstance env s args = (Ret.err e, (StopInstance env s).2) ∧
      (RestarInstance env s args).2.trace.filter Event.isRun = s.trace.filter Event.isRun) ∧
    ((StopInstance env s).1 = Ret.ok →
      RestarInstance env s args = StartInstance env (StopInstance env s).2 args) := by
  have hrun := StopInstance_no_run env s
  unfold RestarInstance RestartSpec
  rcases hstop : StopInstance env s with ⟨r, s1⟩
  rw [hstop] at hrun
  cases r with
  | ok => simp
  | err e =>
    refine ⟨by simp, fun e2 h2 => ?_, by simp⟩
    simp only [Ret.err.injEq] at h2
    subst h2
    exact ⟨rfl, hrun⟩
  | panicked m => simp

/-- Witness of C5: a failing kill in state Started, and a restart of the freshly built agent. -/
theorem restart_is_stop_then_start_witness :
    ((StopInstance envFail { agent := agentHandle, trace := [] }).1
        = Ret.err "os: process already finished" ∧
      RestarInstance envFail { agent := agentHandle, trace := [] } ["-x"] =
        (Ret.err "os: process already finished",
         (StopInstance envFail { agent := agentHandle, trace := [] }).2)) ∧
    ((StopInstance envOk { agent := agent0, trace := [] }).1 = Ret.ok ∧
      RestarInstance envOk { agent := agent0, trace := [] } ["-x"] =
        StartInstance envOk (StopInstance envOk { agent := agent0, trace := [] }).2 ["-x"]) :=
  ⟨⟨by decide,
    ((restart_is_stop_then_start envFail { agent := agentHandle, trace := [] } ["-x"]).2.1
      "os: process already finished" (by decide)).1⟩,
   ⟨by decide,
    (restart_is_stop_then_start envOk { agent := agent0, trace := [] } ["-x"]).2.2 (by decide)⟩⟩

/-- C6.  When the launch of `StartInstance`, the signal command of `PauseInstance` or of
`ContinuePauseInstance`, or the kill or the wait of `StopInstance` fails with the error `e`, the
operation returns `e`, the agent (so `instanceState` and `instancePid`) is the one before the
call, and the trace shows the failed interaction once and nothing after it. -/
theorem failure_is_propagated (env : Env) (s : St) (args : List String) (e : Error) :
    ((env.runCmd s.trace (env.commandPath s.agent.cmd.Path) args).2 = some e →
      StartInstance env s args =
        (Ret.err e,
         { agent := s.agent
           trace := s.trace ++ [Event.run (env.commandPath s.agent.cmd.Path) args
             (env.runCmd s.trace (env.commandPath s.agent.cmd.Path) args).1 (some e)] })) ∧
    (s.agent.instanceState = instanceStateStarted →
      (env.runCmd s.trace (shPath env)
        ["-c", "kill -STOP " ++ toString s.agent.instancePid]).2 = some e →
      PauseInstance env s =
        (Ret.err e,
         { agent := s.agent
           trace := s.trace ++ [Event.run (shPath env)
             ["-c", "kill -STOP " ++ toString s.agent.instancePid]
             (env.runCmd s.trace (shPath env)
               ["-c", "kill -STOP " ++ toString s.agent.instancePid]).1 (some e)] })) ∧
    (s.agent.instanceState = instanceStatePaused →
      (env.runCmd s.trace (shPath env)
        ["-c", "kill -CONT " ++ toString s.agent.instancePid]).2 = some e →
      ContinuePauseInstance env s =
        (Ret.err e,
         { agent := s.agent
           trace := s.trace ++ [Event.run (shPath env)
             ["-c", "kill -CONT " ++ toString s.agent.instancePid]
             (env.runCmd s.trace (shPath env)
               ["-c", "kill -CONT " ++ toString s.agent.instancePid]).1 (some e)] })) ∧
    (∀ p : OsProcess, s.agent.instanceState = instanceStateStarted →
      s.agent.cmd.Process = some p → env.kill s.trace p.Pid = some e →
      StopInstance env s =
        (Ret.err e, { agent := s.agent, trace := s.trace ++ [Event.kill p.Pid (some e)] })) ∧
    (∀ p : OsProcess, s.agent.instanceState = instanceStateStarted →
      s.agent.cmd.Process = some p → env.kill s.trace p.Pid = none →
      env.wait (s.trace ++ [Event.kill p.Pid none]) p.Pid = some e →
      StopInstance env s =
        (Ret.err e,
         { agent := s.agent
           trace := s.trace ++ [Event.kill p.Pid none] ++ [Event.wait p.Pid (some e)] })) :=
  ⟨StartInstance_err env s args e,
   fun hs h => PauseInstance_err env s e hs h,
   fun hs h => ContinuePauseInstance_err env s e hs h,
   fun p hs hp hk => StopInstance_kill_err env s p e hs hp hk,
   fun p hs hp hk hw => StopInstance_wait_err env s p e hs hp hk hw⟩

/-- Witness of C6: a failing launch, a failing suspend, a failing resume, a failing kill and a
failing wait. -/
theorem failure_is_propagated_witness :
    ((envFail.runCmd [] (envFail.commandPath agent0.cmd.Path) ["-x"]).2 = some "exit status 1" ∧
      StartInstance envFail { agent := agent0, trace := [] } ["-x"] =
        (Ret.err "exit status 1",
         { agent := agent0
           trace := [Event.run "/usr/local/bin/instance" ["-x"] (some 4242) (some "exit status 1")] })) ∧
    (agentStarted.instanceState = instanceStateStarted ∧
      PauseInstance envFail { agent := agentStarted, trace := [] } =
        (Ret.err "exit status 1",
         { agent := agentStarted
           trace := [Event.run "/bin/sh" ["-c", "kill -STOP 0"] (some 4242)
             (some "exit status 1")] })) ∧
    (agentPaused.instanceState = instanceStatePaused ∧
      ContinuePauseInstance envFail { agent := agentPaused, trace := [] } =
        (Ret.err "exit status 1",
         { agent := agentPaused
           trace := [Event.run "/bin/sh" ["-c", "kill -CONT 4242"] (some 4242)
             (some "exit status 1")] })) ∧
    (agentHandle.cmd.Process = some { Pid := 9 } ∧
      StopInstance envFail { agent := agentHandle, trace := [] } =
        (Ret.err "os: process already finished",
         { agent := agentHandle
           trace := [Event.kill 9 (some "os: process already finished")] })) ∧
    (envWaitFail.wait [Event.kill 9 none] 9 = some "wait: no child processes" ∧
      StopInstance envWaitFail { agent := agentHandle, trace := [] } =
        (Ret.err "wait: no child processes",
         { agent := agentHandle
           trace := [Event.kill 9 none, Event.wait 9 (some "wait: no child processes")] })) :=
  ⟨⟨by decide,
    (failure_is_propagated envFail { agent := agent0, trace := [] } ["-x"] "exit status 1").1
      (by decide)⟩,
   ⟨by decide,
    (failure_is_propagated envFail { agent := agentStarted, trace := [] } []
      "exit status 1").2.1 (by decide) (by decide)⟩,
   ⟨by decide,
    (failure_is_propagated envFail { agent := agentPaused, trace := [] } []
      "exit status 1").2.2.1 (by decide) (by decide)⟩,
   ⟨by decide,
    (failure_is_propagated envFail { agent := agentHandle, trace := [] } []
      "os: process already finished").2.2.2.1 { Pid := 9 } (by decide) (by decide) (by decide)⟩,
   ⟨by decide,
    (failure_is_propagated envWaitFail { agent := agentHandle, trace := [] } []
      "wait: no child processes").2.2.2.2 { Pid := 9 } (by decide) (by decide) (by decide)
      (by decide)⟩⟩

/-- C7.  `BackupInstanceData` and `CleanUpInstanceData` each run exactly one command (the shell
with `-c` and the copy, respectively remove, command over `instanDir`), return what that run
returned, and leave the agent unchanged, whether the command succeeds or fails. -/
theorem backup_cleanup_frame (env : Env) (s : St) (args : List String) :
    BackupInstanceData env s args =
      (retOf (env.runCmd s.trace (shPath env) ["-c", "cp -r " ++ s.agent.instanDir]).2,
       { agent := s.agent
         trace := s.trace ++ [Event.run (shPath env) ["-c", "cp -r " ++ s.agent.instanDir]
           (env.runCmd s.trace (shPath env) ["-c", "cp -r " ++ s.agent.instanDir]).1
           (env.runCmd s.trace (shPath env) ["-c", "cp -r " ++ s.agent.instanDir]).2] }) ∧
    CleanUpInstanceData env s args =
      (retOf (env.runCmd s.trace (shPath env) ["-c", "rm -r " ++ s.agent.instanDir]).2,
       { agent := s.agent
         trace := s.trace ++ [Event.run (shPath env) ["-c", "rm -r " ++ s.agent.instanDir]
           (env.runCmd s.trace (shPath env) ["-c", "rm -r " ++ s.agent.instanDir]).1
           (env.runCmd s.trace (shPath env) ["-c", "rm -r " ++ s.agent.instanDir]).2] }) := by
  constructor
  · unfold BackupInstanceData
    dsimp only
    rw [execCmd_eq, sprintfS_backup]
    rfl
  · unfold CleanUpInstanceData
    dsimp only
    rw [execCmd_eq, sprintfS_cleanUp]
    rfl

/-- The registration loop of `Start` ends after one pass, whatever the fuel. -/
theorem forLoop_startLoopBody (env : Env) (s : St) (fuel : Nat) :
    forLoop (startLoopBody env) (fuel + 1) s =
      some { agent := s.agent, trace := afterRegister env s } := by
  unfold forLoop startLoopBody Register afterRegister
  dsimp only
  cases env.httpCall s.trace
    (env.apiUrl s.agent.CtrlAddr "api/agent/register" (env.encodeAddr s.agent.Addr)) "POST" with
  | none => simp
  | some e => simp

/-- C9.  Given any positive fuel, `Start` returns; it has made exactly one registration call,
then run the server, and what it returns is the result of the server, whatever the registration
call returned. -/
theorem Start_registers_once_then_serves (env : Env) (s : St) (fuel : Nat) :
    Start env (fuel + 1) s =
      some (retOf (env.runHttpServer (afterRegister env s)),
            { agent := s.agent
              trace := afterRegister env s ++
                [Event.serve (env.runHttpServer (afterRegister env s))] }) ∧
    ((afterRegister env s).filter Event.isHttpCall).length =
      (s.trace.filter Event.isHttpCall).length + 1 ∧
    (afterRegister env s).filter Event.isServe = s.trace.filter Event.isServe := by
  refine ⟨?_, ?_, ?_⟩
  · unfold Start
    rw [forLoop_startLoopBody]
  · unfold afterRegister
    dsimp only
    split <;> simp [Event.isHttpCall]
  · unfold afterRegister
    dsimp only
    split <;> simp [Event.isServe]

/-- C10, the code at the failing input.  On the agent that `NewAgent` builds, called with a
destination argument, `BackupInstanceData` runs the shell command `cp -r ` with no operand at
all; on an agent whose `instanDir` is set, it runs `cp -r` with that directory as the only
operand.  The argument list is never used, so the command names no destination. -/
theorem BackupInstanceData_names_no_destination :
    BackupInstanceData envOk { agent := agent0, trace := [] } ["/backup/instance"] =
      (Ret.ok,
       { agent := agent0, trace := [Event.run "/bin/sh" ["-c", "cp -r "] (some 4242) none] }) ∧
    BackupInstanceData envOk
        { agent := { agent0 with instanDir := "/data/dir" }, trace := [] } ["/backup/instance"] =
      (Ret.ok,
       { agent := { agent0 with instanDir := "/data/dir" }
         trace := [Event.run "/bin/sh" ["-c", "cp -r /data/dir"] (some 4242) none] }) := by
  decide

/-- C8, counterexample.  In state Started, `StartInstance` launches a second process (4243)
although process 4242 was launched before and nothing terminated it; in state Paused,
`RestarInstance` launches a second process without any kill or wait; and on an agent in state
Started that holds a process handle, `StartInstance` launches and returns success. -/
theorem launch_while_a_process_is_tracked :
    (agentStarted.instanceState = instanceStateStarted ∧
      (StartInstance envOk
          { agent := agentStarted, trace := [Event.run "/usr/local/bin/instance" [] (some 4242) none] }
          []).2.trace =
        [Event.run "/usr/local/bin/instance" [] (some 4242) none,
         Event.run "/usr/local/bin/instance" [] (some 4243) none]) ∧
    (agentPaused.instanceState = instanceStatePaused ∧
      (RestarInstance envOk
          { agent := agentPaused, trace := [Event.run "/usr/local/bin/instance" [] (some 4242) none] }
          []).2.trace =
        [Event.run "/usr/local/bin/instance" [] (some 4242) none,
         Event.run "/usr/local/bin/instance" [] (some 4243) none]) ∧
    (agentHandle.instanceState = instanceStateStarted ∧
      StartInstance envOk { agent := agentHandle, trace := [] } [] =
        (Ret.ok,
         { agent := { agentHandle with instancePid := 9 }
           trace := [Event.run "/usr/local/bin/instance" [] (some 4242) none] })) := by
  decide

/-- C8, amended.  `StartInstance` has no state guard: in every state it runs the launch command
exactly once.  `RestarInstance` called outside state Started (Paused included) is exactly
`StartInstance`: nothing is killed or waited for before the launch.  `RestarInstance` called in
state Started runs a command only after the kill and the wait on the command handle of the agent
have both succeeded, and then that command is the launch. -/
theorem launch_discipline (env : Env) (s : St) (args : List String) :
    (StartInstance env s args).2.trace =
      s.trace ++ [Event.run (env.commandPath s.agent.cmd.Path) args
        (env.runCmd s.trace (env.commandPath s.agent.cmd.Path) args).1
        (env.runCmd s.trace (env.commandPath s.agent.cmd.Path) args).2] ∧
    (s.agent.instanceState ≠ instanceStateStarted →
      RestarInstance env s args = StartInstance env s args) ∧
    (s.agent.instanceState = instanceStateStarted →
      (RestarInstance env s args).2.trace.filter Event.isRun ≠ s.trace.filter Event.isRun →
      ∃ p : OsProcess, s.agent.cmd.Process = some p ∧
        env.kill s.trace p.Pid = none ∧
        env.wait (s.trace ++ [Event.kill p.Pid none]) p.Pid = none ∧
        ∃ spawned err, (RestarInstance env s args).2.trace =
          s.trace ++ [Event.kill p.Pid none, Event.wait p.Pid none,
            Event.run (env.commandPath s.agent.cmd.Path) args spawned err]) := by
  refine ⟨StartInstance_trace env s args, fun hs => ?_, fun hs hrun => ?_⟩
  · unfold RestarInstance
    rw [StopInstance_not_started env s hs]
  · have hno := StopInstance_no_run env s
    cases hp : s.agent.cmd.Process with
    | none =>
      exfalso
      apply hrun
      unfold RestarInstance
      rw [StopInstance_started_nil env s hs hp]
    | some p =>
      cases hk : env.kill s.trace p.Pid with
      | some e =>
        exfalso
        apply hrun
        rw [StopInstance_kill_err env s p e hs hp hk] at hno
        unfold RestarInstance
        rw [StopInstance_kill_err env s p e hs hp hk]
        exact hno
      | none =>
        cases hw : env.wait (s.trace ++ [Event.kill p.Pid none]) p.Pid with
        | some e =>
          exfalso
          apply hrun
          rw [StopInstance_wait_err env s p e hs hp hk hw] at hno
          unfold RestarInstance
          rw [StopInstance_wait_err env s p e hs hp hk hw]
          exact hno
        | none =>
          refine ⟨p, rfl, hk, hw, ?_⟩
          unfold RestarInstance
          rw [StopInstance_ok env s p hs hp hk hw]
          dsimp only
          rw [StartInstance_trace]
          refine ⟨(env.runCmd (s.trace ++ [Event.kill p.Pid none] ++ [Event.wait p.Pid none])
              (env.commandPath s.agent.cmd.Path) args).1,
            (env.runCmd (s.trace ++ [Event.kill p.Pid none] ++ [Event.wait p.Pid none])
              (env.commandPath s.agent.cmd.Path) args).2, ?_⟩
          simp only [List.append_assoc, List.cons_append, List.nil_append]

/-- Witness of C8 amended: a restart in state Paused, and a restart in state Started on an agent
that holds a process handle. -/
theorem launch_discipline_witness :
    (agentPaused.instanceState ≠ instanceStateStarted ∧
      RestarInstance envOk { agent := agentPaused, trace := [] } ["-x"] =
        StartInstance envOk { agent := agentPaused, trace := [] } ["-x"]) ∧
    (agentHandle.instanceState = instanceStateStarted ∧
      ∃ p : OsProcess, agentHandle.cmd.Process = some p ∧
        envOk.kill [] p.Pid = none ∧
        envOk.wait ([] ++ [Event.kill p.Pid none]) p.Pid = none ∧
        ∃ spawned err,
          (RestarInstance envOk { agent := agentHandle, trace := [] } ["-x"]).2.trace =
            [] ++ [Event.kill p.Pid none, Event.wait p.Pid none,
              Event.run (envOk.commandPath agentHandle.cmd.Path) ["-x"] spawned err]) :=
  ⟨⟨by decide,
    (launch_discipline envOk { agent := agentPaused, trace := [] } ["-x"]).2.1 (by decide)⟩,
   ⟨by decide,
    (launch_discipline envOk { agent := agentHandle, trace := [] } ["-x"]).2.2
      (by decide) (by decide)⟩⟩

end DT
